import Mathlib

/-!
Shallow embedding of the quiz-app Express backend (routes/classes.js and
models/models.js).  Documents are modelled as Lean structures, MongoDB ids as
naturals, instants as integers (milliseconds since epoch, as `Date.getTime()`
returns).  Each route handler becomes a pure function from the database state
and the request data to a response value and the new database state.
-/

/-- An answer option (`optionSchema`): text plus the correctness flag. -/
structure QOption where
  option_text : String
  is_correct : Bool
deriving DecidableEq

/-- A question (`questionSchema`). -/
structure Question where
  question_text : String
  options : List QOption
  is_multiple_choice : Bool
deriving DecidableEq

/-- A quiz document (`quizSchema`): `start_date` is an instant in
milliseconds, `duration` is in minutes. -/
structure Quiz where
  id : Nat
  quiz_name : String
  class_id : Nat
  start_date : Int
  duration : Int
  questions : List Question
deriving DecidableEq

/-- A class document (`classSchema`): `students` is the list of student ids
(mongoose keeps it as a plain array, so duplicates are representable),
`quizzes` the list of quiz ids pushed at creation. -/
structure ClassDoc where
  id : Nat
  class_name : String
  teacher_id : Nat
  students : List Nat
  quizzes : List Nat
deriving DecidableEq

/-- The part of a student document the class routes touch: only its id.
`studentSchema` (models.js) defines username, password, full_name and email
and no `classes` path, so there is no student-side membership list to
model. -/
structure StudentDoc where
  id : Nat
deriving DecidableEq

/-- The decoded token role (`decoded.role`). -/
inductive Role where
  | teacher
  | student
deriving DecidableEq

/-- The decoded token (`req.user`): id plus role. -/
structure Principal where
  id : Nat
  role : Role
deriving DecidableEq

/-- The database state the class routes read and write. -/
structure Db where
  classes : List ClassDoc
  students : List StudentDoc
  quizzes : List Quiz
deriving DecidableEq

/-- `Model.findById`: first document whose id matches. -/
def findBy {α : Type} (idf : α → Nat) (l : List α) (i : Nat) : Option α :=
  l.find? (fun x => idf x == i)

/-- `document.save()` on a fetched document: every stored copy with the same
id is replaced by the new value. -/
def replaceBy {α : Type} (idf : α → Nat) (l : List α) (c : α) : List α :=
  l.map (fun x => if idf x == idf c then c else x)

def findClass (db : Db) (i : Nat) : Option ClassDoc := findBy ClassDoc.id db.classes i

def findStudent (db : Db) (i : Nat) : Option StudentDoc := findBy StudentDoc.id db.students i

def findQuiz (db : Db) (i : Nat) : Option Quiz := findBy Quiz.id db.quizzes i

def saveClass (db : Db) (c : ClassDoc) : Db :=
  { db with classes := replaceBy ClassDoc.id db.classes c }

def saveQuiz (db : Db) (q : Quiz) : Db :=
  { db with quizzes := replaceBy Quiz.id db.quizzes q }

/-- Response of `POST /:classId/add-student`. -/
inductive AddStudentResult where
  | denied (status : Nat) (msg : String)
  | added (msg : String)
deriving DecidableEq

/-- `POST /:classId/add-student` (routes/classes.js, current version):
role gate, class fetch, ownership gate, student fetch, then an unconditional
`existingClass.students.push(student._id); await existingClass.save()`. -/
def addStudentToClass (db : Db) (user : Principal) (classId studentId : Nat) :
    AddStudentResult × Db :=
  if user.role ≠ Role.teacher then
    (.denied 403 "User is not a teacher", db)
  else
    match findClass db classId with
    | none => (.denied 404 "Class not found", db)
    | some existingClass =>
      if existingClass.teacher_id ≠ user.id then
        (.denied 403 "User is not the teacher of this class", db)
      else
        match findStudent db studentId with
        | none => (.denied 404 "Student not found", db)
        | some student =>
          let updated := { existingClass with
            students := existingClass.students ++ [student.id] }
          (.added "Student added to the class successfully", saveClass db updated)

/-- Response of `POST /join`. -/
inductive JoinResult where
  | denied (status : Nat) (msg : String)
  | joined (msg : String)
  | alreadyMember (msg : String)
  | internalError
deriving DecidableEq

/-- `POST /join` (routes/classes.js, current version): student role gate,
fetch class and the student record; if the class is missing, 404; if the
student record is missing, dereferencing `student._id` throws and the outer
catch returns 500; otherwise membership is checked with
`existingClass.students.includes(student._id)` and only an absent student is
pushed and saved on the class side.  The handler then issues
`Student.findByIdAndUpdate(decoded.id, { $addToSet: { classes: classId } })`,
but `studentSchema` (models.js) defines no `classes` path and mongoose's
default strict mode strips unknown update paths, so that call leaves the
student document unchanged — it is a dead write and adds nothing to the
state. -/
def studentJoinClass (db : Db) (user : Principal) (classId : Nat) :
    JoinResult × Db :=
  if user.role ≠ Role.student then
    (.denied 403 "User is not a student", db)
  else
    match findClass db classId with
    | none => (.denied 404 "Class not found", db)
    | some existingClass =>
      match findStudent db user.id with
      | none => (.internalError, db)
      | some student =>
        if student.id ∈ existingClass.students then
          (.alreadyMember "Student already in the class", db)
        else
          let db1 := saveClass db
            { existingClass with students := existingClass.students ++ [student.id] }
          (.joined "Student joined the class successfully", db1)

/-- Request body of quiz creation and quiz update. -/
structure QuizBody where
  quiz_name : String
  start_date : Int
  duration : Int
  questions : List Question
deriving DecidableEq

/-- Response of `POST /:classId/quizzes`. -/
inductive CreateQuizResult where
  | denied (status : Nat) (msg : String)
  | validationFailed (msg : String)
  | created (msg : String) (quiz : Quiz)
deriving DecidableEq

/-- `POST /:classId/quizzes` (routes/classes.js, current version): teacher
role gate, class fetch, ownership gate, rejection of `quizStartDate <= now`
with 400, then construction of the new quiz.  The save block is wrapped in
its own try/catch whose handler only logs (`console.error('Error saving
quiz:', error)`), so when saving fails (`saveFails`) execution continues to
the success response with nothing persisted; `newQuizId` stands for the
ObjectId mongoose mints for the new document. -/
def createQuiz (db : Db) (user : Principal) (classId : Nat) (body : QuizBody)
    (now : Int) (newQuizId : Nat) (saveFails : Bool) : CreateQuizResult × Db :=
  if user.role ≠ Role.teacher then
    (.denied 403 "User is not a teacher", db)
  else
    match findClass db classId with
    | none => (.denied 404 "Class not found", db)
    | some existingClass =>
      if existingClass.teacher_id ≠ user.id then
        (.denied 403 "User is not the teacher of this class", db)
      else if body.start_date ≤ now then
        (.validationFailed "Quiz start date must be in the future", db)
      else
        let newQuiz : Quiz :=
          { id := newQuizId, quiz_name := body.quiz_name, class_id := classId,
            start_date := body.start_date, duration := body.duration,
            questions := body.questions }
        if saveFails then
          (.created "Quiz created successfully" newQuiz, db)
        else
          let db1 := { db with quizzes := db.quizzes ++ [newQuiz] }
          let db2 := saveClass db1
            { existingClass with quizzes := existingClass.quizzes ++ [newQuiz.id] }
          (.created "Quiz created successfully" newQuiz, db2)

/-- Response of `PATCH /:classId/quizzes/:quizId`. -/
inductive UpdateQuizResult where
  | denied (status : Nat) (msg : String)
  | validationFailed (msg : String)
  | updated (msg : String) (quiz : Quiz)
deriving DecidableEq

/-- `PATCH /:classId/quizzes/:quizId` (routes/classes.js, current version):
teacher role gate, class fetch, ownership gate, quiz fetch by
`Quiz.findById(quizId)` alone (the fetched quiz's `class_id` is never
compared to the path's `classId`), re-validation of `quizStartDate <= now`,
then the four fields are overwritten and the quiz saved. -/
def updateQuiz (db : Db) (user : Principal) (classId quizId : Nat)
    (body : QuizBody) (now : Int) : UpdateQuizResult × Db :=
  if user.role ≠ Role.teacher then
    (.denied 403 "User is not a teacher", db)
  else
    match findClass db classId with
    | none => (.denied 404 "Class not found", db)
    | some existingClass =>
      if existingClass.teacher_id ≠ user.id then
        (.denied 403 "User is not the teacher of this class", db)
      else
        match findQuiz db quizId with
        | none => (.denied 404 "Quiz not found", db)
        | some existingQuiz =>
          if body.start_date ≤ now then
            (.validationFailed "Quiz start date must be in the future", db)
          else
            let updatedQuiz := { existingQuiz with
              quiz_name := body.quiz_name, start_date := body.start_date,
              duration := body.duration, questions := body.questions }
            (.updated "Quiz updated successfully" updatedQuiz,
             saveQuiz db updatedQuiz)

/-- Response of `GET /:classId/quizzes/:quizId`. -/
inductive QuizView where
  | denied (status : Nat) (msg : String)
  | statusOnly (msg : String)
  | full (quiz : Quiz)
deriving DecidableEq

/-- `GET /:classId/quizzes/:quizId` (routes/classes.js, current version).
The opening `!decoded || (role !== teacher && role !== student)` gate is
always passed by a well-typed principal (the role type has exactly the two
values), so it is not represented.  Membership:
`myClass.teacher_id.equals(decoded.id) || myClass.students.includes(decoded.id)`.
For a student the window gate compares `now` with `start_date` and with
`start_date + duration * 60000`; note both comparisons are strict, so both
boundary instants fall through to the full payload. -/
def getQuiz (db : Db) (user : Principal) (classId quizId : Nat) (now : Int) :
    QuizView :=
  match findClass db classId with
  | none => .denied 404 "Class not found"
  | some myClass =>
    if myClass.teacher_id = user.id ∨ user.id ∈ myClass.students then
      match findQuiz db quizId with
      | none => .denied 404 "Quiz not found"
      | some quiz =>
        if user.role = Role.student then
          let quizEndDate := quiz.start_date + quiz.duration * 60000
          if now < quiz.start_date then
            .statusOnly "Quiz has not started yet"
          else if now > quizEndDate then
            .statusOnly "Quiz has passed"
          else
            .full quiz
        else
          .full quiz
    else
      .denied 403 "User is not authorized to access this quiz"

/-! ### Helper lemmas about the repository model -/

theorem findBy_some_id {α : Type} (idf : α → Nat) (l : List α) (i : Nat)
    (c : α) (h : findBy idf l i = some c) : idf c = i := by
  have hp := List.find?_some h
  simpa using hp

theorem findBy_replaceBy {α : Type} (idf : α → Nat) (l : List α) (i : Nat)
    (old c : α) (h : findBy idf l i = some old) (hid : idf c = i) :
    findBy idf (replaceBy idf l c) i = some c := by
  induction l with
  | nil => simp [findBy] at h
  | cons a t ih =>
    by_cases ha : idf a = i
    · simp [findBy, replaceBy, hid, ha]
    · have h' : findBy idf t i = some old := by
        simpa [findBy, List.find?_cons, ha] using h
      have := ih h'
      simpa [findBy, replaceBy, List.find?_cons, ha, hid] using this

/-! ### Concrete fixtures used by witnesses and counterexamples -/

def exQuiz : Quiz :=
  { id := 20, quiz_name := "Math Quiz", class_id := 10, start_date := 0,
    duration := 1,
    questions := [ { question_text := "q1",
                     options := [ { option_text := "a", is_correct := true },
                                  { option_text := "b", is_correct := false } ],
                     is_multiple_choice := false } ] }

def exClass : ClassDoc :=
  { id := 10, class_name := "Math", teacher_id := 2, students := [1],
    quizzes := [20] }

def exStudentDoc : StudentDoc := { id := 1 }

def exDb : Db :=
  { classes := [exClass], students := [exStudentDoc], quizzes := [exQuiz] }

def exBody : QuizBody :=
  { quiz_name := "New Quiz", start_date := 100, duration := 30, questions := [] }

def exQuizB : Quiz :=
  { id := 22, quiz_name := "Other Quiz", class_id := 99, start_date := 0,
    duration := 1, questions := [] }

def exDbC : Db :=
  { classes := [exClass], students := [exStudentDoc], quizzes := [exQuizB] }

def exClassB : ClassDoc :=
  { id := 11, class_name := "Physics", teacher_id := 2, students := [],
    quizzes := [] }

def exDbB : Db :=
  { classes := [exClassB], students := [exStudentDoc], quizzes := [] }

/-! ### C1: quiz-window boundaries for a student member -/

/-- C1 counterexample: at the exact end instant `start_date + duration`
minutes (here `now = 60000 = 0 + 1 * 60000`), the quiz read for a student
member returns the full quiz, not the `Ended` ("Quiz has passed") status the
claim requires — both window comparisons in the source are strict, so the
window is closed at the end, not half-open. -/
theorem getQuiz_end_boundary_counterexample :
    (60000 : Int) = exQuiz.start_date + exQuiz.duration * 60000 ∧
    getQuiz exDb ⟨1, Role.student⟩ 10 20 60000 = QuizView.full exQuiz ∧
    getQuiz exDb ⟨1, Role.student⟩ 10 20 60000 ≠
      QuizView.statusOnly "Quiz has passed" :=
  ⟨by decide, by decide, by decide⟩

/-- C1 (amended): for a student member of the class, the quiz read treats
the window as closed at both ends: at `now = start_date` the full quiz is
returned, at `now = start_date + duration` minutes the full quiz is still
returned, and only strictly after that instant is the result `Ended` (the
"Quiz has passed" status with content withheld). -/
theorem getQuiz_student_window_boundaries
    (db : Db) (user : Principal) (classId quizId : Nat) (now : Int)
    (cls : ClassDoc) (quiz : Quiz)
    (hrole : user.role = Role.student)
    (hc : findClass db classId = some cls)
    (hmem : user.id ∈ cls.students)
    (hq : findQuiz db quizId = some quiz)
    (hdur : 0 ≤ quiz.duration) :
    (now = quiz.start_date → getQuiz db user classId quizId now = QuizView.full quiz) ∧
    (now = quiz.start_date + quiz.duration * 60000 →
      getQuiz db user classId quizId now = QuizView.full quiz) ∧
    (quiz.start_date + quiz.duration * 60000 < now →
      getQuiz db user classId quizId now = QuizView.statusOnly "Quiz has passed") := by
  have hnn : (0 : Int) ≤ quiz.duration * 60000 := mul_nonneg hdur (by norm_num)
  refine ⟨?_, ?_, ?_⟩
  · intro hnow
    subst hnow
    have h1 : ¬ quiz.start_date < quiz.start_date := lt_irrefl _
    have h2 : ¬ quiz.start_date + quiz.duration * 60000 < quiz.start_date := by
      linarith
    simp [getQuiz, hc, hq, hrole, hmem, h1, h2]
  · intro hnow
    subst hnow
    have h1 : ¬ quiz.start_date + quiz.duration * 60000 < quiz.start_date := by
      linarith
    have h2 : ¬ quiz.start_date + quiz.duration * 60000 <
        quiz.start_date + quiz.duration * 60000 := lt_irrefl _
    simp [getQuiz, hc, hq, hrole, hmem, h1, h2]
  · intro hlate
    have h1 : ¬ now < quiz.start_date := by linarith
    simp [getQuiz, hc, hq, hrole, hmem, h1, hlate]

/-- C1 amended witness: at `now = start_date` the concrete student read
returns the full quiz. -/
theorem getQuiz_student_window_boundaries_witness :
    getQuiz exDb ⟨1, Role.student⟩ 10 20 0 = QuizView.full exQuiz :=
  (getQuiz_student_window_boundaries exDb ⟨1, Role.student⟩ 10 20 0 exClass
    exQuiz rfl (by decide) (by decide) (by decide) (by decide)).1 rfl

/-! ### C2: add-student is not idempotent in the source -/

/-- C2: evaluating the add-student handler where student 1 is already a
member (`students = [1]`) shows the code appends a second copy — the stored
class ends with `students = [1, 1]` and the success message is returned,
instead of the no-mutation / `AlreadyMember` outcome the contract requires:
the handler pushes unconditionally, with no membership check. -/
theorem addStudentToClass_duplicate_push :
    (addStudentToClass exDb ⟨2, Role.teacher⟩ 10 1).1 =
      AddStudentResult.added "Student added to the class successfully" ∧
    findClass (addStudentToClass exDb ⟨2, Role.teacher⟩ 10 1).2 10 =
      some { exClass with students := [1, 1] } :=
  ⟨by decide, by decide⟩

/-! ### C3: quiz-save errors are caught, logged and swallowed -/

/-- C3: when the principal is the owning teacher and the start date passes
validation but the save block fails (`saveFails = true`), the handler still
answers with the "Quiz created successfully" message carrying the new quiz,
and the database is left unchanged (the quiz is unsaved): the inner
try/catch only logs and execution continues to the success response. -/
theorem createQuiz_save_error_swallowed
    (db : Db) (user : Principal) (classId newQuizId : Nat) (body : QuizBody)
    (now : Int) (cls : ClassDoc)
    (hrole : user.role = Role.teacher)
    (hc : findClass db classId = some cls)
    (hown : cls.teacher_id = user.id)
    (hfut : now < body.start_date) :
    createQuiz db user classId body now newQuizId true =
      (CreateQuizResult.created "Quiz created successfully"
        { id := newQuizId, quiz_name := body.quiz_name, class_id := classId,
          start_date := body.start_date, duration := body.duration,
          questions := body.questions }, db) := by
  have hns : ¬ body.start_date ≤ now := not_le.mpr hfut
  simp [createQuiz, hc, hrole, hown, hns]

/-- C3 witness: concrete owning teacher, valid future start, failing save. -/
theorem createQuiz_save_error_swallowed_witness :
    createQuiz exDb ⟨2, Role.teacher⟩ 10 exBody 0 21 true =
      (CreateQuizResult.created "Quiz created successfully"
        { id := 21, quiz_name := "New Quiz", class_id := 10, start_date := 100,
          duration := 30, questions := [] }, exDb) :=
  createQuiz_save_error_swallowed exDb ⟨2, Role.teacher⟩ 10 21 exBody 0 exClass
    rfl (by decide) rfl (by decide)

/-! ### C4: quiz creation authorization -/

/-- C4: with the target class existing, quiz creation is permitted iff the
principal is a teacher who owns the class: a non-teacher gets the 403
`NotTeacher` denial with the database untouched; a teacher who is not the
owner of this class (whatever other classes the state says they own) gets
the 403 `NotOwner` denial with the database untouched; and an owning teacher
is never answered with a 403 denial. -/
theorem createQuiz_authorization
    (db : Db) (user : Principal) (classId newQuizId : Nat) (body : QuizBody)
    (now : Int) (saveFails : Bool) (cls : ClassDoc)
    (hc : findClass db classId = some cls) :
    (user.role ≠ Role.teacher →
      createQuiz db user classId body now newQuizId saveFails =
        (CreateQuizResult.denied 403 "User is not a teacher", db)) ∧
    (user.role = Role.teacher → cls.teacher_id ≠ user.id →
      createQuiz db user classId body now newQuizId saveFails =
        (CreateQuizResult.denied 403 "User is not the teacher of this class", db)) ∧
    (user.role = Role.teacher → cls.teacher_id = user.id →
      ∀ status msg, (createQuiz db user classId body now newQuizId saveFails).1 ≠
        CreateQuizResult.denied status msg) := by
  refine ⟨?_, ?_, ?_⟩
  · intro h
    simp [createQuiz, h]
  · intro h1 h2
    simp [createQuiz, hc, h1, h2]
  · intro h1 h2 status msg
    by_cases hle : body.start_date ≤ now
    · simp [createQuiz, hc, h1, h2, hle]
    · by_cases hsf : saveFails <;>
        simp [createQuiz, hc, h1, h2, hle, hsf]

/-- C4 witness: a student principal is denied 403 on the concrete class and
no state changes. -/
theorem createQuiz_authorization_witness :
    createQuiz exDb ⟨1, Role.student⟩ 10 exBody 0 21 false =
      (CreateQuizResult.denied 403 "User is not a teacher", exDb) :=
  (createQuiz_authorization exDb ⟨1, Role.student⟩ 10 21 exBody 0 false exClass
    (by decide)).1 (by decide)

/-! ### C5: start-date validation on create and update -/

/-- C5: for an owning teacher (all authorization gates passed, and for the
update the quiz exists), both quiz creation and quiz update reject exactly
the start dates with `start_date ≤ now` — so `start_date = now` and every
past instant draw the 400 validation failure with no mutation, every
strictly future instant is accepted, and the check is re-run by the update
handler as well. -/
theorem quiz_start_date_validation
    (db : Db) (user : Principal) (classId quizId newQuizId : Nat)
    (body : QuizBody) (now : Int) (saveFails : Bool) (cls : ClassDoc) (quiz : Quiz)
    (hrole : user.role = Role.teacher)
    (hc : findClass db classId = some cls)
    (hown : cls.teacher_id = user.id)
    (hq : findQuiz db quizId = some quiz) :
    ((createQuiz db user classId body now newQuizId saveFails).1 =
        CreateQuizResult.validationFailed "Quiz start date must be in the future" ↔
      body.start_date ≤ now) ∧
    (body.start_date ≤ now →
      createQuiz db user classId body now newQuizId saveFails =
        (CreateQuizResult.validationFailed "Quiz start date must be in the future", db)) ∧
    ((updateQuiz db user classId quizId body now).1 =
        UpdateQuizResult.validationFailed "Quiz start date must be in the future" ↔
      body.start_date ≤ now) ∧
    (body.start_date ≤ now →
      updateQuiz db user classId quizId body now =
        (UpdateQuizResult.validationFailed "Quiz start date must be in the future", db)) := by
  by_cases hle : body.start_date ≤ now
  · refine ⟨?_, ?_, ?_, ?_⟩ <;>
      simp [createQuiz, updateQuiz, hc, hq, hrole, hown, hle]
  · refine ⟨?_, ?_, ?_, ?_⟩
    · by_cases hsf : saveFails <;>
        simp [createQuiz, hc, hrole, hown, hle, hsf]
    · intro h; exact absurd h hle
    · simp [updateQuiz, hc, hq, hrole, hown, hle]
    · intro h; exact absurd h hle

/-- C5 witness: `start_date = now` on creation is rejected with the 400
validation message and the state is unchanged. -/
theorem quiz_start_date_validation_witness :
    createQuiz exDb ⟨2, Role.teacher⟩ 10
      { quiz_name := "New Quiz", start_date := 0, duration := 30, questions := [] }
      0 21 false =
      (CreateQuizResult.validationFailed "Quiz start date must be in the future", exDb) :=
  ((quiz_start_date_validation exDb ⟨2, Role.teacher⟩ 10 20 21
      { quiz_name := "New Quiz", start_date := 0, duration := 30, questions := [] }
      0 false exClass exQuiz rfl (by decide) rfl (by decide)).2.1) (by decide)

/-! ### C6: the quiz read for the owning teacher -/

/-- C6: when the principal is the owning teacher of the class, the quiz read
returns the full quiz payload whatever the current instant: the window gate
in the handler runs only under `decoded.role === "student"`. -/
theorem getQuiz_teacher_always_full
    (db : Db) (user : Principal) (classId quizId : Nat) (now : Int)
    (cls : ClassDoc) (quiz : Quiz)
    (hrole : user.role = Role.teacher)
    (hc : findClass db classId = some cls)
    (hown : cls.teacher_id = user.id)
    (hq : findQuiz db quizId = some quiz) :
    getQuiz db user classId quizId now = QuizView.full quiz := by
  simp [getQuiz, hc, hq, hrole, hown]

/-- C6 witness: the owning teacher reads the concrete quiz long after its
window (`now = 10^9`) and still receives the full payload. -/
theorem getQuiz_teacher_always_full_witness :
    getQuiz exDb ⟨2, Role.teacher⟩ 10 20 1000000000 = QuizView.full exQuiz :=
  getQuiz_teacher_always_full exDb ⟨2, Role.teacher⟩ 10 20 1000000000 exClass
    exQuiz rfl (by decide) rfl (by decide)

/-! ### C9: in-window student reads get the unfiltered payload -/

/-- C9: a student member reading the quiz inside the open window receives
`QuizView.full quiz` where `quiz` is the stored document itself — its
questions and options, each option keeping its `is_correct` flag, are
returned verbatim; nothing is filtered from the student-facing read. -/
theorem getQuiz_student_in_window_unfiltered
    (db : Db) (user : Principal) (classId quizId : Nat) (now : Int)
    (cls : ClassDoc) (quiz : Quiz)
    (hrole : user.role = Role.student)
    (hc : findClass db classId = some cls)
    (hmem : user.id ∈ cls.students)
    (hq : findQuiz db quizId = some quiz)
    (h1 : quiz.start_date ≤ now)
    (h2 : now ≤ quiz.start_date + quiz.duration * 60000) :
    getQuiz db user classId quizId now = QuizView.full quiz := by
  have hn1 : ¬ now < quiz.start_date := not_lt.mpr h1
  have hn2 : ¬ quiz.start_date + quiz.duration * 60000 < now := not_lt.mpr h2
  simp [getQuiz, hc, hq, hrole, hmem, hn1, hn2]

/-- C9 witness: the concrete member student reads mid-window and the payload
is the stored quiz, whose options carry `is_correct` values. -/
theorem getQuiz_student_in_window_unfiltered_witness :
    getQuiz exDb ⟨1, Role.student⟩ 10 20 30000 = QuizView.full exQuiz ∧
    exQuiz.questions.map (fun q => q.options.map (fun o => o.is_correct)) =
      [[true, false]] :=
  ⟨getQuiz_student_in_window_unfiltered exDb ⟨1, Role.student⟩ 10 20 30000
      exClass exQuiz rfl (by decide) (by decide) (by decide) (by decide) (by decide),
   by decide⟩

/-! ### C10: neither quiz read nor quiz update compares quiz.class_id with
the path's classId -/

/-- C10: for any stored quiz whose `class_id` differs from the `classId` in
the request path (hypothesis `hmis`), a principal passing the class-C gates
still operates on that quiz: the owning teacher's read returns it in full,
an in-window student member's read returns it in full, and the teacher's
update with a valid future start date overwrites its four fields — no
handler ever compares `quiz.class_id` to the path's class. -/
theorem quiz_class_id_not_checked
    (db : Db) (t s : Principal) (classId quizId : Nat) (body : QuizBody)
    (now : Int) (cls : ClassDoc) (quiz : Quiz)
    (hc : findClass db classId = some cls)
    (hq : findQuiz db quizId = some quiz)
    (hmis : quiz.class_id ≠ classId)
    (ht_role : t.role = Role.teacher)
    (ht_own : cls.teacher_id = t.id)
    (hs_role : s.role = Role.student)
    (hs_mem : s.id ∈ cls.students)
    (hw1 : quiz.start_date ≤ now)
    (hw2 : now ≤ quiz.start_date + quiz.duration * 60000)
    (hfut : now < body.start_date) :
    getQuiz db t classId quizId now = QuizView.full quiz ∧
    getQuiz db s classId quizId now = QuizView.full quiz ∧
    (updateQuiz db t classId quizId body now).1 =
      UpdateQuizResult.updated "Quiz updated successfully"
        { quiz with
          quiz_name := body.quiz_name, start_date := body.start_date,
          duration := body.duration, questions := body.questions } := by
  have hn1 : ¬ now < quiz.start_date := not_lt.mpr hw1
  have hn2 : ¬ quiz.start_date + quiz.duration * 60000 < now := not_lt.mpr hw2
  have hns : ¬ body.start_date ≤ now := not_le.mpr hfut
  refine ⟨?_, ?_, ?_⟩
  · simp [getQuiz, hc, hq, ht_role, ht_own]
  · simp [getQuiz, hc, hq, hs_role, hs_mem, hn1, hn2]
  · simp [updateQuiz, hc, hq, ht_role, ht_own, hns]

/-- C10 witness: quiz 22 has `class_id = 99` while the path names class 10;
the owning teacher of class 10 still reads it in full. -/
theorem quiz_class_id_not_checked_witness :
    getQuiz exDbC ⟨2, Role.teacher⟩ 10 22 0 = QuizView.full exQuizB :=
  (quiz_class_id_not_checked exDbC ⟨2, Role.teacher⟩ ⟨1, Role.student⟩ 10 22
    exBody 0 exClass exQuizB (by decide) (by decide) (by decide) rfl rfl rfl
    (by decide) (by decide) (by decide) (by decide)).1

/-! ### C7 and C8: the student join path -/

/-- C7: the join handler is idempotent.  If the student's id is already in
`class.students` nothing is mutated and `AlreadyMember` ("Student already in
the class") is answered; if it is absent, the join succeeds, the stored
class then holds exactly one entry for the student, and repeating the same
join against the new state answers `AlreadyMember` and leaves the state
untouched. -/
theorem studentJoinClass_idempotent
    (db : Db) (user : Principal) (classId : Nat) (cls : ClassDoc) (st : StudentDoc)
    (hrole : user.role = Role.student)
    (hc : findClass db classId = some cls)
    (hst : findStudent db user.id = some st) :
    (user.id ∈ cls.students →
      studentJoinClass db user classId =
        (JoinResult.alreadyMember "Student already in the class", db)) ∧
    (user.id ∉ cls.students →
      (studentJoinClass db user classId).1 =
        JoinResult.joined "Student joined the class successfully" ∧
      ∃ cls2, findClass (studentJoinClass db user classId).2 classId = some cls2 ∧
        cls2.students.count user.id = 1 ∧
        studentJoinClass (studentJoinClass db user classId).2 user classId =
          (JoinResult.alreadyMember "Student already in the class",
           (studentJoinClass db user classId).2)) := by
  have hid : st.id = user.id := findBy_some_id StudentDoc.id db.students user.id st hst
  have hcid : cls.id = classId := findBy_some_id ClassDoc.id db.classes classId cls hc
  constructor
  · intro hmem
    have hmem' : st.id ∈ cls.students := by rw [hid]; exact hmem
    simp [studentJoinClass, hc, hst, hrole, hmem']
  · intro hnot
    have hnotst : st.id ∉ cls.students := by rw [hid]; exact hnot
    have hred : studentJoinClass db user classId =
        (JoinResult.joined "Student joined the class successfully",
         saveClass db { cls with students := cls.students ++ [st.id] }) := by
      simp [studentJoinClass, hc, hst, hrole, hnotst]
    rw [hred]
    refine ⟨rfl, { cls with students := cls.students ++ [st.id] }, ?_, ?_, ?_⟩
    · exact findBy_replaceBy ClassDoc.id db.classes classId cls
        { cls with students := cls.students ++ [st.id] } hc hcid
    · have h0 : cls.students.count user.id = 0 := List.count_eq_zero.mpr hnot
      simp [hid, List.count_append, h0]
    · have hc2 : findClass
          (saveClass db { cls with students := cls.students ++ [st.id] }) classId =
          some { cls with students := cls.students ++ [st.id] } :=
        findBy_replaceBy ClassDoc.id db.classes classId cls
          { cls with students := cls.students ++ [st.id] } hc hcid
      have hst2 : findStudent
          (saveClass db { cls with students := cls.students ++ [st.id] }) user.id =
          some st := hst
      have hmem2 : st.id ∈
          ({ cls with students := cls.students ++ [st.id] } : ClassDoc).students := by
        simp
      simp [studentJoinClass, hc2, hst2, hrole, hmem2]

/-- C7 witness: student 1 is already in `exClass.students`; the concrete
join answers `AlreadyMember` and the state is identical. -/
theorem studentJoinClass_idempotent_witness :
    studentJoinClass exDb ⟨1, Role.student⟩ 10 =
      (JoinResult.alreadyMember "Student already in the class", exDb) :=
  (studentJoinClass_idempotent exDb ⟨1, Role.student⟩ 10 exClass exStudentDoc
    rfl (by decide) (by decide)).1 (by decide)

/-- C8: evaluating the join handler at a successful join (student 1 joins
class 11, not yet a member) shows only one side of the membership relation
changes: the join reports success and the stored class gains the student's
id, but the students collection — and so student 1's document — is exactly
the state it had before.  The handler's
`Student.findByIdAndUpdate(decoded.id, { $addToSet: { classes: classId } })`
targets a `classes` path that `studentSchema` does not define, so mongoose's
default strict mode strips it and the student side is never written. -/
theorem studentJoinClass_student_side_dead :
    (studentJoinClass exDbB ⟨1, Role.student⟩ 11).1 =
      JoinResult.joined "Student joined the class successfully" ∧
    findClass (studentJoinClass exDbB ⟨1, Role.student⟩ 11).2 11 =
      some { exClassB with students := [1] } ∧
    (studentJoinClass exDbB ⟨1, Role.student⟩ 11).2.students = exDbB.students ∧
    findStudent (studentJoinClass exDbB ⟨1, Role.student⟩ 11).2 1 =
      some exStudentDoc :=
  ⟨by decide, by decide, by decide, by decide⟩
